import Mathlib

/-!
# Controlled cloudflared connector: provisioning and CA-pool resolution

A shallow embedding of `pkg/controller/controlled-cloudflared-connector.go`.

* Go strings are embedded as `String`.  The only place the code inspects the
  bytes of a string is `strconv.ParseInt`, which rejects every byte that is not
  an ASCII digit (after an optional sign), so a non-ASCII character and the
  UTF-8 bytes that encode it are rejected alike.
* Go pointers that may be nil (`*CaPool`, `*string`, `*struct{ Name string }`)
  are embedded as `Option`; dereferencing nil is the outcome `Outcome.panicked`.
* Go `map[string]string` literals are embedded as association lists.
* The collaborators (`client.Client`, `TunnelClient`, the process environment)
  are embedded as a `World` of responses; every call the function makes to the
  cluster client or the tunnel client is recorded, in order, in a trace.
* The Kubernetes API structs are embedded with the fields the code sets; every
  other field keeps its zero value and is left out.
-/

namespace Controller

/-! ## Errors -/

/-- The two sentinel errors of Go's `strconv` package. -/
inductive StrconvErr where
  | ErrSyntax
  | ErrRange
  deriving DecidableEq, Repr

/-- Go error values as the code builds them. -/
inductive GoError where
  /-- an error produced by a collaborator (cluster API, tunnel service) -/
  | external (msg : String)
  /-- the result of `errors.New(msg)` -/
  | new (msg : String)
  /-- the result of `errors.Wrap(cause, msg)` or `errors.Wrapf(cause, ...)` -/
  | wrap (cause : GoError) (msg : String)
  /-- a `*strconv.NumError` with fields `Func`, `Num`, `Err` -/
  | numError (func : String) (num : String) (err : StrconvErr)
  deriving DecidableEq, Repr

/-! ## Kubernetes API objects (the fields the code sets) -/

/-- Go `v1.ConfigMapVolumeSource` with its `LocalObjectReference.Name`. -/
structure ConfigMapVolumeSource where
  Name : String
  deriving DecidableEq, Repr

/-- Go `v1.SecretVolumeSource`. -/
structure SecretVolumeSource where
  SecretName : String
  deriving DecidableEq, Repr

/-- Go `v1.VolumeSource`: every member is a pointer, nil unless set. -/
structure VolumeSource where
  ConfigMap : Option ConfigMapVolumeSource
  Secret : Option SecretVolumeSource
  deriving DecidableEq, Repr

/-- Go `v1.Volume`. -/
structure Volume where
  Name : String
  VolumeSource : VolumeSource
  deriving DecidableEq, Repr

/-- Go `v1.VolumeMount`. -/
structure VolumeMount where
  Name : String
  MountPath : String
  SubPath : String
  deriving DecidableEq, Repr

/-- Go `v1.Container`. -/
structure Container where
  Name : String
  Image : String
  ImagePullPolicy : String
  Command : List String
  VolumeMounts : List VolumeMount
  deriving DecidableEq, Repr

/-- Go `v1.RestartPolicy`. -/
inductive RestartPolicy where
  | Always
  | OnFailure
  | Never
  deriving DecidableEq, Repr

/-- Go `v1.PodSpec`. -/
structure PodSpec where
  Containers : List Container
  RestartPolicy : RestartPolicy
  Volumes : List Volume
  deriving DecidableEq, Repr

/-- Go `metav1.ObjectMeta`. -/
structure ObjectMeta where
  Name : String
  Namespace : String
  Labels : List (String × String)
  deriving DecidableEq, Repr

/-- Go `v1.PodTemplateSpec`. -/
structure PodTemplateSpec where
  ObjectMeta : ObjectMeta
  Spec : PodSpec
  deriving DecidableEq, Repr

/-- Go `metav1.LabelSelector`. -/
structure LabelSelector where
  MatchLabels : List (String × String)
  deriving DecidableEq, Repr

/-- Go `appsv1.DeploymentSpec`; `Replicas` is an `*int32`. -/
structure DeploymentSpec where
  Replicas : Option Int
  Selector : Option LabelSelector
  Template : PodTemplateSpec
  deriving DecidableEq, Repr

/-- Go `appsv1.Deployment`. -/
structure Deployment where
  ObjectMeta : ObjectMeta
  Spec : DeploymentSpec
  deriving DecidableEq, Repr

/-- Go `client.ListOptions`; the selector is the `labels.Set` handed to
`labels.SelectorFromSet`. -/
structure ListOptions where
  Namespace : String
  LabelSelector : List (String × String)
  deriving DecidableEq, Repr

/-! ## The CA pool -/

/-- Go `struct{ Name string }`. -/
structure NameRef where
  Name : String
  deriving DecidableEq, Repr

/-- Go `CaPool`. -/
structure CaPool where
  ConfigMap : Option NameRef
  Secret : Option NameRef
  Key : String
  MountPath : String
  deriving DecidableEq, Repr

/-- Go `GetCaPoolOptions`: the four arguments are `*string`, the result `*CaPool`. -/
def GetCaPoolOptions (configMap secret key mountPath : Option String) : Option CaPool :=
  if configMap.isSome || secret.isSome then
    let caPool : CaPool :=
      { ConfigMap := none, Secret := none,
        Key := "ca-certificates.crt", MountPath := "/etc/ssl/certs" }
    let caPool := match configMap with
      | some n => { caPool with ConfigMap := some { Name := n } }
      | none => caPool
    let caPool := match secret with
      | some n => { caPool with Secret := some { Name := n } }
      | none => caPool
    let caPool := match key with
      | some k => { caPool with Key := k }
      | none => caPool
    let caPool := match mountPath with
      | some m => { caPool with MountPath := m }
      | none => caPool
    some caPool
  else
    none

/-! ## `strconv.ParseInt(s, 10, 32)` -/

/-- The `uint64` cutoff of `ParseUint` for base 10: `maxUint64/10 + 1`. -/
def parseUintCutoff : Nat := (2 ^ 64 - 1) / 10 + 1

/-- The largest value of `ParseUint` for bit size 32: `1<<32 - 1`. -/
def parseUintMaxVal : Nat := 2 ^ 32 - 1

/-- The digit loop of Go `strconv.ParseUint` for base 10 and bit size 32, over
the remaining bytes, with the accumulator `n` (a `uint64`).  A byte that is a
letter yields a digit value of at least 10 in Go and so a syntax error, like
any other byte that is not a decimal digit. -/
def parseUintLoop : List Char → Nat → Except StrconvErr Nat
  | [], n => .ok n
  | c :: cs, n =>
    if '0' ≤ c ∧ c ≤ '9' then
      let d := c.toNat - '0'.toNat
      if d ≥ 10 then .error .ErrSyntax
      else if n ≥ parseUintCutoff then .error .ErrRange
      else
        let n := (n * 10) % 2 ^ 64
        let n1 := (n + d) % 2 ^ 64
        if n1 < n ∨ n1 > parseUintMaxVal then .error .ErrRange
        else parseUintLoop cs n1
    else .error .ErrSyntax

/-- Go `strconv.ParseUint(s, 10, 32)` on the bytes of `s`. -/
def ParseUint (s : List Char) : Except StrconvErr Nat :=
  if s = [] then .error .ErrSyntax else parseUintLoop s 0

/-- Go `strconv.ParseInt(s, 10, 32)`: the result is the `int64` and, on
failure, the `*NumError` with `Func = "ParseInt"` and `Num = s`.  After a range
error of `ParseUint` Go goes on with `un = maxVal`, which exceeds the cutoff
for either sign, so the result is a range error again. -/
def ParseInt (s : String) : Except GoError Int :=
  match s.toList with
  | [] => .error (.numError "ParseInt" s .ErrSyntax)
  | c :: cs =>
    let neg := c = '-'
    let rest := if c = '+' then cs else if c = '-' then cs else c :: cs
    let cutoff : Nat := 2 ^ 31
    match ParseUint rest with
    | .error .ErrSyntax => .error (.numError "ParseInt" s .ErrSyntax)
    | .error .ErrRange => .error (.numError "ParseInt" s .ErrRange)
    | .ok un =>
      if ¬ neg ∧ un ≥ cutoff then .error (.numError "ParseInt" s .ErrRange)
      else if neg ∧ un > cutoff then .error (.numError "ParseInt" s .ErrRange)
      else if neg then .ok (-(un : Int)) else .ok (un : Int)

/-- Go conversion `int32(x)` of an `int64`: wrap into the 32-bit range. -/
def toInt32 (x : Int) : Int := (x + 2 ^ 31) % 2 ^ 32 - 2 ^ 31

/-! ## The deployment template -/

/-- Go `cloudflaredConnectDeploymentTemplating`; `getenv` is `os.Getenv`. -/
def cloudflaredConnectDeploymentTemplating (getenv : String → String)
    (token : String) (ns : String) (replicas : Int)
    (extraVolumes : List Volume) (extraVolumeMounts : List VolumeMount) : Deployment :=
  let appName := "controlled-cloudflared-connector"
  let image := getenv "CLOUDFLARED_IMAGE"
  let pullPolicy := getenv "CLOUDFLARED_IMAGE_PULL_POLICY"
  { ObjectMeta :=
      { Name := appName
        Namespace := ns
        Labels :=
          [ ("app", appName),
            ("strrl.dev/cloudflare-tunnel-ingress-controller",
              "controlled-cloudflared-connector") ] }
    Spec :=
      { Replicas := some replicas
        Selector := some { MatchLabels := [("app", appName)] }
        Template :=
          { ObjectMeta :=
              { Name := appName
                Namespace := ""
                Labels := [("app", appName)] }
            Spec :=
              { Containers :=
                  [ { Name := appName
                      Image := image
                      ImagePullPolicy := pullPolicy
                      Command :=
                        [ "cloudflared", "--no-autoupdate", "tunnel", "--metrics",
                          "0.0.0.0:44483", "run", "--token", token ]
                      VolumeMounts := extraVolumeMounts } ]
                RestartPolicy := .Always
                Volumes := extraVolumes } } } }

/-! ## The provisioning call -/

/-- The responses of the collaborators during one call. -/
structure World where
  /-- response of `kubeClient.List` for the given options: an error or `list.Items` -/
  list : ListOptions → Except GoError (List Deployment)
  /-- response of `tunnelClient.FetchTunnelToken` -/
  fetchTunnelToken : Except GoError String
  /-- the process environment read by `os.Getenv` -/
  getenv : String → String
  /-- response of `kubeClient.Create` for the given deployment: an error or nil -/
  create : Deployment → Option GoError

/-- A call made to a collaborator. -/
inductive Call where
  | List (opts : ListOptions)
  | FetchTunnelToken
  | Create (deployment : Deployment)
  deriving DecidableEq, Repr

/-- How a call of a Go function ends. -/
inductive Outcome where
  /-- the function returned this `error` (`none` is nil) -/
  | returned (err : Option GoError)
  /-- the function panicked with a runtime error -/
  | panicked (msg : String)
  deriving DecidableEq, Repr

/-- The calls made to the collaborators, in order, and how the call ended. -/
structure Run where
  calls : List Call
  outcome : Outcome
  deriving DecidableEq, Repr

/-- The options of the existence query. -/
def listOptions (ns : String) : ListOptions :=
  { Namespace := ns
    LabelSelector :=
      [ ("strrl.dev/cloudflare-tunnel-ingress-controller",
          "controlled-cloudflared-connector") ] }

/-- Lines 46-63 of `CreateControlledCloudflaredIfNotExist`: the local
`caPoolSource` (a `*v1.VolumeSource`), or the error returned when both the
config map and the secret are set. -/
def caPoolSource (caPool : CaPool) : Except GoError (Option VolumeSource) :=
  match caPool.ConfigMap, caPool.Secret with
  | some _, some _ =>
    .error (.new "Only one of --capool-config-map or --capool-secret may be specified")
  | some cm, none =>
    .ok (some { ConfigMap := some { Name := cm.Name }, Secret := none })
  | none, some sec =>
    .ok (some { ConfigMap := none, Secret := some { SecretName := sec.Name } })
  | none, none => .ok none

/-- Lines 65 and 68-72: the local `extraVolumes`. -/
def extraVolumes (source : Option VolumeSource) : List Volume :=
  match source with
  | some src => [] ++ [{ Name := "ca-pool", VolumeSource := src }]
  | none => []

/-- Lines 66 and 73-77: the local `extraVolumeMounts`. -/
def extraVolumeMounts (caPool : CaPool) (source : Option VolumeSource) : List VolumeMount :=
  match source with
  | some _ =>
    [] ++ [{ Name := "ca-pool", MountPath := caPool.MountPath, SubPath := caPool.Key }]
  | none => []

/-- Go `CreateControlledCloudflaredIfNotExist`; `caPool` is a `*CaPool`, and
reading `caPool.ConfigMap` through a nil `caPool` panics. -/
def CreateControlledCloudflaredIfNotExist (w : World) (ns : String)
    (caPool : Option CaPool) : Run :=
  let opts := listOptions ns
  match w.list opts with
  | .error err =>
    { calls := [.List opts]
      outcome := .returned (some (.wrap err
        ("list controlled-cloudflared-connector in namespace " ++ ns))) }
  | .ok items =>
    if items.length > 0 then
      { calls := [.List opts], outcome := .returned none }
    else
      match caPool with
      | none =>
        { calls := [.List opts]
          outcome := .panicked "invalid memory address or nil pointer dereference" }
      | some caPool =>
        match caPoolSource caPool with
        | .error err => { calls := [.List opts], outcome := .returned (some err) }
        | .ok source =>
          match w.fetchTunnelToken with
          | .error err =>
            { calls := [.List opts, .FetchTunnelToken]
              outcome := .returned (some (.wrap err "fetch tunnel token")) }
          | .ok token =>
            match ParseInt (w.getenv "CLOUDFLARED_REPLICA_COUNT") with
            | .error err =>
              { calls := [.List opts, .FetchTunnelToken]
                outcome := .returned (some (.wrap err "invalid replica count")) }
            | .ok replicas =>
              let deployment := cloudflaredConnectDeploymentTemplating w.getenv token ns
                (toInt32 replicas) (extraVolumes source) (extraVolumeMounts caPool source)
              match w.create deployment with
              | some err =>
                { calls := [.List opts, .FetchTunnelToken, .Create deployment]
                  outcome := .returned (some (.wrap err
                    "create controlled-cloudflared-connector deployment")) }
              | none =>
                { calls := [.List opts, .FetchTunnelToken, .Create deployment]
                  outcome := .returned none }

/-! ## Sample inputs -/

/-- A world whose cluster holds `existing`, whose tunnel service issues `token`,
whose environment sets `CLOUDFLARED_REPLICA_COUNT` to `replicaCount` and
nothing else, and whose creation call succeeds. -/
def sampleWorld (existing : List Deployment) (token : String) (replicaCount : String) :
    World :=
  { list := fun _ => .ok existing
    fetchTunnelToken := .ok token
    getenv := fun name => if name = "CLOUDFLARED_REPLICA_COUNT" then replicaCount else ""
    create := fun _ => none }

/-- The deployment of the scenario: namespace `tun`, config map `ca-bundle`,
two replicas, token `tok-123`, empty image and pull policy. -/
def scenarioDeployment : Deployment :=
  { ObjectMeta :=
      { Name := "controlled-cloudflared-connector"
        Namespace := "tun"
        Labels :=
          [ ("app", "controlled-cloudflared-connector"),
            ("strrl.dev/cloudflare-tunnel-ingress-controller",
              "controlled-cloudflared-connector") ] }
    Spec :=
      { Replicas := some 2
        Selector := some { MatchLabels := [("app", "controlled-cloudflared-connector")] }
        Template :=
          { ObjectMeta :=
              { Name := "controlled-cloudflared-connector"
                Namespace := ""
                Labels := [("app", "controlled-cloudflared-connector")] }
            Spec :=
              { Containers :=
                  [ { Name := "controlled-cloudflared-connector"
                      Image := ""
                      ImagePullPolicy := ""
                      Command :=
                        [ "cloudflared", "--no-autoupdate", "tunnel", "--metrics",
                          "0.0.0.0:44483", "run", "--token", "tok-123" ]
                      VolumeMounts :=
                        [ { Name := "ca-pool", MountPath := "/etc/ssl/certs",
                            SubPath := "ca-certificates.crt" } ] } ]
                RestartPolicy := .Always
                Volumes :=
                  [ { Name := "ca-pool"
                      VolumeSource :=
                        { ConfigMap := some { Name := "ca-bundle" }, Secret := none } } ] } } } }

/-- A CA pool with both sources set. -/
def bothSourcesPool : CaPool :=
  { ConfigMap := some { Name := "ca-bundle" }, Secret := some { Name := "ca-secret" },
    Key := "ca-certificates.crt", MountPath := "/etc/ssl/certs" }

/-! ## Vocabulary of the replica-count claims -/

/-- Whether `s` is an optional sign followed by one or more decimal digits. -/
def isNumeric (s : String) : Bool :=
  match s.toList with
  | [] => false
  | c :: cs =>
    if c = '+' ∨ c = '-' then !cs.isEmpty && cs.all Char.isDigit
    else (c :: cs).all Char.isDigit

/-- The number a list of decimal digits denotes, continuing from `acc`. -/
def decimalValue (acc : Nat) (l : List Char) : Nat :=
  l.foldl (fun a c => a * 10 + (c.toNat - '0'.toNat)) acc

/-- The scenario's deployment with replica count `-1`. -/
def negativeReplicasDeployment : Deployment :=
  { scenarioDeployment with Spec := { scenarioDeployment.Spec with Replicas := some (-1) } }

/-- The scenario's CA pool: config map `ca-bundle` with the default key and
mount path. -/
def scenarioPool : CaPool :=
  { ConfigMap := some { Name := "ca-bundle" }, Secret := none,
    Key := "ca-certificates.crt", MountPath := "/etc/ssl/certs" }

/-! ## The cluster's object store, and vocabulary of the later claims -/

/-- Whether a label set satisfies a selector that requires every listed
key to carry the listed value: the selector `labels.SelectorFromSet` builds,
and the `MatchLabels` of a `metav1.LabelSelector`. -/
def selectorMatches (selector labels : List (String × String)) : Bool :=
  selector.all fun kv => labels.lookup kv.1 == some kv.2

/-- The deployments of a store that a list query returns: those in the queried
namespace (every namespace when the queried namespace is empty) whose labels
satisfy the selector. -/
def storeList (store : List Deployment) (opts : ListOptions) : List Deployment :=
  store.filter fun d =>
    (opts.Namespace == "" || d.ObjectMeta.Namespace == opts.Namespace) &&
      selectorMatches opts.LabelSelector d.ObjectMeta.Labels

/-- A world like `sampleWorld` whose list query is answered from a store. -/
def storeWorld (store : List Deployment) (token : String) (replicaCount : String) : World :=
  { sampleWorld [] token replicaCount with list := fun opts => .ok (storeList store opts) }

/-- A world like `sampleWorld` on an empty cluster whose list query fails. -/
def listFailureWorld (e : GoError) (token : String) (replicaCount : String) : World :=
  { sampleWorld [] token replicaCount with list := fun _ => .error e }

/-- A world like `sampleWorld` on an empty cluster whose token fetch fails. -/
def fetchFailureWorld (e : GoError) (replicaCount : String) : World :=
  { sampleWorld [] "" replicaCount with fetchTunnelToken := .error e }

/-- A world like `sampleWorld` on an empty cluster whose creation call fails. -/
def createFailureWorld (e : GoError) (token : String) (replicaCount : String) : World :=
  { sampleWorld [] token replicaCount with create := fun _ => some e }

/-- Whether a call is a creation request. -/
def Call.isCreate : Call → Bool
  | .Create _ => true
  | _ => false

/-- The error an error value wraps, when it was built by `errors.Wrap` or
`errors.Wrapf`. -/
def GoError.cause : GoError → Option GoError
  | .wrap cause _ => some cause
  | _ => none

/-- A deployment of namespace `tun` that is not a connector: it carries no
discriminator label. -/
def unrelatedDeployment : Deployment :=
  { scenarioDeployment with
    ObjectMeta := { Name := "coredns", Namespace := "tun", Labels := [("k8s-app", "kube-dns")] } }

/-! ## The existence gate and the trace of a call -/

/-- A creation request in the trace means that the query returned no
deployment, the CA pool was usable, the token was issued and the replica count
parsed, and the request carries the deployment templated from them. -/
theorem calls_of_create_mem {w : World} {ns : String} {caPool : Option CaPool}
    {d : Deployment}
    (h : Call.Create d ∈ (CreateControlledCloudflaredIfNotExist w ns caPool).calls) :
    ∃ cp source token replicas,
      caPool = some cp ∧ w.list (listOptions ns) = .ok [] ∧
      caPoolSource cp = .ok source ∧ w.fetchTunnelToken = .ok token ∧
      ParseInt (w.getenv "CLOUDFLARED_REPLICA_COUNT") = .ok replicas ∧
      d = cloudflaredConnectDeploymentTemplating w.getenv token ns (toInt32 replicas)
        (extraVolumes source) (extraVolumeMounts cp source) := by
  unfold CreateControlledCloudflaredIfNotExist at h
  simp only at h
  cases hl : w.list (listOptions ns) with
  | error e => simp [hl] at h
  | ok items =>
    cases items with
    | cons x xs => simp [hl] at h
    | nil =>
      cases caPool with
      | none => simp [hl] at h
      | some cp =>
        cases hs : caPoolSource cp with
        | error e => simp [hl, hs] at h
        | ok source =>
          cases ht : w.fetchTunnelToken with
          | error e => simp [hl, hs, ht] at h
          | ok token =>
            cases hp : ParseInt (w.getenv "CLOUDFLARED_REPLICA_COUNT") with
            | error e => simp [hl, hs, ht, hp] at h
            | ok replicas =>
              refine ⟨cp, source, token, replicas, rfl, rfl, hs, rfl, rfl, ?_⟩
              simp only [hl, hs, ht, hp, List.length_nil, gt_iff_lt, lt_self_iff_false,
                if_false] at h
              split at h <;> simpa using h

/-- When the query returns no deployment, the CA pool is usable, the token is
issued and the replica count parses, the call fetches one token and issues one
creation request, and returns what the creation call returns (wrapped). -/
theorem run_of_reaching_create {w : World} {ns : String} {cp : CaPool}
    {source : Option VolumeSource} {token : String} {replicas : Int}
    (hl : w.list (listOptions ns) = .ok []) (hs : caPoolSource cp = .ok source)
    (ht : w.fetchTunnelToken = .ok token)
    (hp : ParseInt (w.getenv "CLOUDFLARED_REPLICA_COUNT") = .ok replicas) :
    (CreateControlledCloudflaredIfNotExist w ns (some cp)).calls =
      [ .List (listOptions ns), .FetchTunnelToken,
        .Create (cloudflaredConnectDeploymentTemplating w.getenv token ns (toInt32 replicas)
          (extraVolumes source) (extraVolumeMounts cp source)) ] := by
  unfold CreateControlledCloudflaredIfNotExist
  simp only [hl, hs, ht, hp, List.length_nil, gt_iff_lt, lt_self_iff_false, if_false]
  split <;> rfl

/-! ## The existence gate (C1, C2) -/

/-- C1: for every namespace and every `caPool` argument (nil included, and one
with both sources set included), when the list query succeeds and returns at
least one deployment, the call returns nil, and its only call to a collaborator
is the list query: no `FetchTunnelToken` call and no `Create` call. -/
theorem existing_deployment_is_noop (w : World) (ns : String) (caPool : Option CaPool)
    (items : List Deployment) (hlist : w.list (listOptions ns) = .ok items)
    (hsome : 0 < items.length) :
    (CreateControlledCloudflaredIfNotExist w ns caPool).outcome = .returned none ∧
    (CreateControlledCloudflaredIfNotExist w ns caPool).calls = [.List (listOptions ns)] ∧
    Call.FetchTunnelToken ∉ (CreateControlledCloudflaredIfNotExist w ns caPool).calls ∧
    ∀ d, Call.Create d ∉ (CreateControlledCloudflaredIfNotExist w ns caPool).calls := by
  have hrun : CreateControlledCloudflaredIfNotExist w ns caPool =
      { calls := [.List (listOptions ns)], outcome := .returned none } := by
    unfold CreateControlledCloudflaredIfNotExist
    simp [hlist, hsome]
  rw [hrun]
  simp

/-- C1 at a cluster holding one connector, for the nil pool and for a pool with
both sources set. -/
theorem existing_deployment_is_noop_witness :
    (sampleWorld [scenarioDeployment] "tok-123" "2").list (listOptions "tun")
        = .ok [scenarioDeployment] ∧
    0 < [scenarioDeployment].length ∧
    (CreateControlledCloudflaredIfNotExist (sampleWorld [scenarioDeployment] "tok-123" "2")
        "tun" none).outcome = .returned none ∧
    (CreateControlledCloudflaredIfNotExist (sampleWorld [scenarioDeployment] "tok-123" "2")
        "tun" (some bothSourcesPool)).outcome = .returned none :=
  ⟨rfl, by decide,
    (existing_deployment_is_noop (sampleWorld [scenarioDeployment] "tok-123" "2") "tun" none
      [scenarioDeployment] rfl (by decide)).1,
    (existing_deployment_is_noop (sampleWorld [scenarioDeployment] "tok-123" "2") "tun"
      (some bothSourcesPool) [scenarioDeployment] rfl (by decide)).1⟩

/-- C2: with a nil trust-pool reference (what `GetCaPoolOptions` returns when
neither name is given), an empty list result, a token that is issued and the
valid replica count `2`, the call reads `caPool.ConfigMap` through the nil
pointer and panics after the list query: no token is fetched and no creation
request is issued. -/
theorem nil_pool_panics :
    GetCaPoolOptions none none none none = none ∧
    CreateControlledCloudflaredIfNotExist (sampleWorld [] "tok-123" "2") "tun"
        (GetCaPoolOptions none none none none) =
      { calls := [.List (listOptions "tun")]
        outcome := .panicked "invalid memory address or nil pointer dereference" } :=
  ⟨rfl, rfl⟩

/-! ## Resolving the CA pool (C3, C4, C5) -/

/-- C3, as stated, fails: with both a config-map name and a secret name set,
`GetCaPoolOptions` yields a reference (it has no error result). -/
theorem both_sources_yield_reference :
    GetCaPoolOptions (some "ca-bundle") (some "ca-secret") none none =
      some { ConfigMap := some { Name := "ca-bundle" }, Secret := some { Name := "ca-secret" },
             Key := "ca-certificates.crt", MountPath := "/etc/ssl/certs" } :=
  rfl

/-- C3, amended: with both names set, `GetCaPoolOptions` never fails: for every
key and mount path it returns a reference with both sources set; the
configuration error is returned by `CreateControlledCloudflaredIfNotExist`
when it is given that reference and the list query returns no deployment. -/
theorem both_sources_rejected_at_provisioning (configMap secret : String)
    (key mountPath : Option String) :
    GetCaPoolOptions (some configMap) (some secret) key mountPath =
      some { ConfigMap := some { Name := configMap }, Secret := some { Name := secret },
             Key := key.getD "ca-certificates.crt",
             MountPath := mountPath.getD "/etc/ssl/certs" } ∧
    ∀ (w : World) (ns : String), w.list (listOptions ns) = .ok [] →
      (CreateControlledCloudflaredIfNotExist w ns
          (GetCaPoolOptions (some configMap) (some secret) key mountPath)).outcome =
        .returned (some (.new
          "Only one of --capool-config-map or --capool-secret may be specified")) := by
  have hget : GetCaPoolOptions (some configMap) (some secret) key mountPath =
      some { ConfigMap := some { Name := configMap }, Secret := some { Name := secret },
             Key := key.getD "ca-certificates.crt",
             MountPath := mountPath.getD "/etc/ssl/certs" } := by
    cases key <;> cases mountPath <;> rfl
  refine ⟨hget, ?_⟩
  intro w ns hl
  rw [hget]
  unfold CreateControlledCloudflaredIfNotExist
  simp [hl, caPoolSource]

/-- C3, amended, at config map `ca-bundle`, secret `ca-secret`, a given key and
no mount path, on a cluster without a connector. -/
theorem both_sources_rejected_at_provisioning_witness :
    (sampleWorld [] "tok-123" "2").list (listOptions "tun") = .ok [] ∧
    (CreateControlledCloudflaredIfNotExist (sampleWorld [] "tok-123" "2") "tun"
        (GetCaPoolOptions (some "ca-bundle") (some "ca-secret") (some "ca.pem") none)).outcome =
      .returned (some (.new
        "Only one of --capool-config-map or --capool-secret may be specified")) :=
  ⟨rfl,
    (both_sources_rejected_at_provisioning "ca-bundle" "ca-secret" (some "ca.pem") none).2
      (sampleWorld [] "tok-123" "2") "tun" rfl⟩

/-- C4: when exactly one of config-map name and secret name is given,
`GetCaPoolOptions` returns a reference whose source of the given kind carries
that name, whose other source is absent, whose `Key` is the given key or
`ca-certificates.crt`, and whose `MountPath` is the given mount path or
`/etc/ssl/certs`. -/
theorem one_source_resolves (name : String) (key mountPath : Option String) :
    GetCaPoolOptions (some name) none key mountPath =
      some { ConfigMap := some { Name := name }, Secret := none,
             Key := match key with
               | some k => k
               | none => "ca-certificates.crt",
             MountPath := match mountPath with
               | some m => m
               | none => "/etc/ssl/certs" } ∧
    GetCaPoolOptions none (some name) key mountPath =
      some { ConfigMap := none, Secret := some { Name := name },
             Key := match key with
               | some k => k
               | none => "ca-certificates.crt",
             MountPath := match mountPath with
               | some m => m
               | none => "/etc/ssl/certs" } := by
  cases key <;> cases mountPath <;> exact ⟨rfl, rfl⟩

/-- C5: `GetCaPoolOptions` returns nil exactly when neither a config-map name
nor a secret name is given, whatever the key and the mount path are. -/
theorem no_source_iff_nil (configMap secret key mountPath : Option String) :
    GetCaPoolOptions configMap secret key mountPath = none ↔
      configMap = none ∧ secret = none := by
  cases configMap <;> cases secret <;> simp [GetCaPoolOptions]

/-! ## The submitted deployment (C6, C7, C10) -/

/-- C6: for every non-nil trust-pool reference with exactly one source set,
every deployment the call submits has exactly one pod volume, named `ca-pool`,
whose volume source has the referenced kind set with the referenced name and
the other kind unset, and one container with exactly one volume mount, named
`ca-pool`, with `SubPath` the reference's `Key` and `MountPath` the
reference's `MountPath`. -/
theorem ca_pool_volume_and_mount (w : World) (ns : String) (caPool : CaPool) (d : Deployment)
    (hone : (caPool.ConfigMap.isSome ∧ caPool.Secret = none) ∨
      (caPool.ConfigMap = none ∧ caPool.Secret.isSome))
    (hcreate : Call.Create d ∈
      (CreateControlledCloudflaredIfNotExist w ns (some caPool)).calls) :
    d.Spec.Template.Spec.Volumes =
      [ { Name := "ca-pool"
          VolumeSource :=
            { ConfigMap := caPool.ConfigMap.map fun r => { Name := r.Name }
              Secret := caPool.Secret.map fun r => { SecretName := r.Name } } } ] ∧
    ∃ c, d.Spec.Template.Spec.Containers = [c] ∧
      c.VolumeMounts =
        [ { Name := "ca-pool", MountPath := caPool.MountPath, SubPath := caPool.Key } ] := by
  obtain ⟨cp, source, token, replicas, hcp, -, hs, -, -, hd⟩ := calls_of_create_mem hcreate
  cases hcp
  subst hd
  obtain ⟨cm, sec, key, mountPath⟩ := caPool
  rcases hone with ⟨h1, h2⟩ | ⟨h1, h2⟩
  · simp only at h1 h2
    subst h2
    cases cm with
    | none => simp at h1
    | some r =>
      simp only [caPoolSource, Except.ok.injEq] at hs
      subst hs
      exact ⟨rfl, _, rfl, rfl⟩
  · simp only at h1 h2
    subst h1
    cases sec with
    | none => simp at h2
    | some r =>
      simp only [caPoolSource, Except.ok.injEq] at hs
      subst hs
      exact ⟨rfl, _, rfl, rfl⟩

/-- C6 at the scenario: namespace `tun`, no existing workload, config map
`ca-bundle` with the default key and mount path, replica count `2`, token
`tok-123`: the creation request is issued and carries the volume and mount. -/
theorem ca_pool_volume_and_mount_witness :
    GetCaPoolOptions (some "ca-bundle") none none none =
      some { ConfigMap := some { Name := "ca-bundle" }, Secret := none,
             Key := "ca-certificates.crt", MountPath := "/etc/ssl/certs" } ∧
    Call.Create scenarioDeployment ∈
      (CreateControlledCloudflaredIfNotExist (sampleWorld [] "tok-123" "2") "tun"
        (some { ConfigMap := some { Name := "ca-bundle" }, Secret := none,
                Key := "ca-certificates.crt", MountPath := "/etc/ssl/certs" })).calls ∧
    scenarioDeployment.Spec.Replicas = some 2 ∧
    scenarioDeployment.Spec.Template.Spec.Volumes =
      [ { Name := "ca-pool"
          VolumeSource := { ConfigMap := some { Name := "ca-bundle" }, Secret := none } } ] ∧
    ∃ c, scenarioDeployment.Spec.Template.Spec.Containers = [c] ∧
      c.VolumeMounts =
        [ { Name := "ca-pool", MountPath := "/etc/ssl/certs",
            SubPath := "ca-certificates.crt" } ] :=
  ⟨rfl, by decide, rfl,
    ca_pool_volume_and_mount (sampleWorld [] "tok-123" "2") "tun"
      { ConfigMap := some { Name := "ca-bundle" }, Secret := none,
        Key := "ca-certificates.crt", MountPath := "/etc/ssl/certs" }
      scenarioDeployment (Or.inl ⟨rfl, rfl⟩) (by decide)⟩

/-- C7: for every token string the credential source returns, every deployment
the call submits has one container, whose launch command is the fixed vector
`cloudflared --no-autoupdate tunnel --metrics 0.0.0.0:44483 run --token`
followed by that token, unmodified, as its last element. -/
theorem launch_command_embeds_token (w : World) (ns : String) (caPool : Option CaPool)
    (token : String) (d : Deployment) (htoken : w.fetchTunnelToken = .ok token)
    (hcreate : Call.Create d ∈ (CreateControlledCloudflaredIfNotExist w ns caPool).calls) :
    ∃ c, d.Spec.Template.Spec.Containers = [c] ∧
      c.Command =
        [ "cloudflared", "--no-autoupdate", "tunnel", "--metrics", "0.0.0.0:44483", "run",
          "--token", token ] := by
  obtain ⟨cp, source, token', replicas, -, -, -, ht, -, hd⟩ := calls_of_create_mem hcreate
  rw [htoken] at ht
  cases ht
  subst hd
  exact ⟨_, rfl, rfl⟩

/-- C7 at a token with a leading dash and a space, on the scenario's inputs. -/
theorem launch_command_embeds_token_witness :
    (sampleWorld [] "--tok 123" "2").fetchTunnelToken = .ok "--tok 123" ∧
    Call.Create
        (cloudflaredConnectDeploymentTemplating (sampleWorld [] "--tok 123" "2").getenv
          "--tok 123" "tun" 2 [] []) ∈
      (CreateControlledCloudflaredIfNotExist (sampleWorld [] "--tok 123" "2") "tun"
        (some { ConfigMap := none, Secret := none, Key := "", MountPath := "" })).calls ∧
    ∃ c,
      (cloudflaredConnectDeploymentTemplating (sampleWorld [] "--tok 123" "2").getenv
          "--tok 123" "tun" 2 [] []).Spec.Template.Spec.Containers = [c] ∧
      c.Command =
        [ "cloudflared", "--no-autoupdate", "tunnel", "--metrics", "0.0.0.0:44483", "run",
          "--token", "--tok 123" ] :=
  ⟨rfl, by decide,
    launch_command_embeds_token (sampleWorld [] "--tok 123" "2") "tun"
      (some { ConfigMap := none, Secret := none, Key := "", MountPath := "" }) "--tok 123"
      (cloudflaredConnectDeploymentTemplating (sampleWorld [] "--tok 123" "2").getenv
        "--tok 123" "tun" 2 [] [])
      rfl (by decide)⟩

/-- C10, as stated, fails: the pod template of the built deployment does not
carry the discriminator label (here for the scenario's inputs). -/
theorem pod_template_lacks_discriminator :
    ¬ ((cloudflaredConnectDeploymentTemplating (sampleWorld [] "tok-123" "2").getenv
            "tok-123" "tun" 2 [] []).ObjectMeta.Labels.lookup
          "strrl.dev/cloudflare-tunnel-ingress-controller"
        = some "controlled-cloudflared-connector" ∧
      (cloudflaredConnectDeploymentTemplating (sampleWorld [] "tok-123" "2").getenv
            "tok-123" "tun" 2 [] []).Spec.Template.ObjectMeta.Labels.lookup
          "strrl.dev/cloudflare-tunnel-ingress-controller"
        = some "controlled-cloudflared-connector") := by
  decide

/-- C10, amended: for every input, the built deployment carries the
discriminator label in its own label set; the label set of its pod template is
exactly `app = controlled-cloudflared-connector` and has no discriminator
label. -/
theorem discriminator_on_deployment_only (getenv : String → String) (token ns : String)
    (replicas : Int) (volumes : List Volume) (mounts : List VolumeMount) :
    (cloudflaredConnectDeploymentTemplating getenv token ns replicas volumes
        mounts).ObjectMeta.Labels.lookup "strrl.dev/cloudflare-tunnel-ingress-controller"
      = some "controlled-cloudflared-connector" ∧
    (cloudflaredConnectDeploymentTemplating getenv token ns replicas volumes
        mounts).Spec.Template.ObjectMeta.Labels
      = [("app", "controlled-cloudflared-connector")] ∧
    (cloudflaredConnectDeploymentTemplating getenv token ns replicas volumes
        mounts).Spec.Template.ObjectMeta.Labels.lookup
          "strrl.dev/cloudflare-tunnel-ingress-controller"
      = none := by
  exact ⟨rfl, rfl, rfl⟩

/-! ## `strconv.ParseInt` on decimal strings -/

theorem digit_iff_isDigit (c : Char) : ('0' ≤ c ∧ c ≤ '9') ↔ c.isDigit = true := by
  simp only [Char.isDigit, Bool.and_eq_true, decide_eq_true_eq]
  exact Iff.rfl

theorem digit_toNat_lt {c : Char} (h : '0' ≤ c ∧ c ≤ '9') : c.toNat - '0'.toNat < 10 := by
  have h2 : c.toNat ≤ 57 := h.2
  have h3 : '0'.toNat = 48 := rfl
  omega

theorem digitChar_digit {k : Nat} (hk : k < 10) :
    ('0' ≤ Nat.digitChar k ∧ Nat.digitChar k ≤ '9') ∧
      (Nat.digitChar k).toNat - '0'.toNat = k := by
  interval_cases k <;> decide

theorem le_decimalValue (l : List Char) (acc : Nat) : acc ≤ decimalValue acc l := by
  induction l generalizing acc with
  | nil => simp [decimalValue]
  | cons c cs ih =>
    have := ih (acc * 10 + (c.toNat - '0'.toNat))
    simp only [decimalValue, List.foldl_cons] at this ⊢
    omega

theorem parseUintLoop_digits (l : List Char) (acc : Nat)
    (hd : ∀ c ∈ l, '0' ≤ c ∧ c ≤ '9') (hv : decimalValue acc l ≤ parseUintMaxVal) :
    parseUintLoop l acc = .ok (decimalValue acc l) := by
  induction l generalizing acc with
  | nil => simp [parseUintLoop, decimalValue]
  | cons c cs ih =>
    have hc := hd c (List.mem_cons_self _ _)
    have hlt := digit_toNat_lt hc
    have hstep : decimalValue acc (c :: cs) =
        decimalValue (acc * 10 + (c.toNat - '0'.toNat)) cs := rfl
    rw [hstep] at hv ⊢
    have hle := le_decimalValue cs (acc * 10 + (c.toNat - '0'.toNat))
    have hmax : parseUintMaxVal = 4294967295 := by norm_num [parseUintMaxVal]
    have hcut : parseUintCutoff = 1844674407370955162 := by norm_num [parseUintCutoff]
    have h1 : (acc * 10) % 2 ^ 64 = acc * 10 := Nat.mod_eq_of_lt (by omega)
    have h2 : (acc * 10 + (c.toNat - '0'.toNat)) % 2 ^ 64 =
        acc * 10 + (c.toNat - '0'.toNat) := Nat.mod_eq_of_lt (by omega)
    rw [parseUintLoop]
    simp only [hc, and_self, if_true, h1, h2]
    rw [if_neg (by omega), if_neg (by omega), if_neg (by omega)]
    exact ih _ (fun x hx => hd x (List.mem_cons_of_mem _ hx)) hv

theorem parseUintLoop_ok_digits (l : List Char) (acc v : Nat)
    (h : parseUintLoop l acc = .ok v) : ∀ c ∈ l, '0' ≤ c ∧ c ≤ '9' := by
  induction l generalizing acc with
  | nil => simp
  | cons c cs ih =>
    rw [parseUintLoop] at h
    by_cases hc : '0' ≤ c ∧ c ≤ '9'
    · simp only [hc, and_self, if_true] at h
      split at h
      · cases h
      · split at h
        · cases h
        · split at h
          · cases h
          · intro x hx
            rcases List.mem_cons.1 hx with rfl | hx
            · exact hc
            · exact ih _ h x hx
    · rw [if_neg hc] at h
      cases h

theorem toDigitsCore_digits (fuel : Nat) : ∀ (n : Nat) (ds : List Char), n < fuel →
    (∀ c ∈ ds, '0' ≤ c ∧ c ≤ '9') →
    (∀ c ∈ Nat.toDigitsCore 10 fuel n ds, '0' ≤ c ∧ c ≤ '9') ∧
      decimalValue 0 (Nat.toDigitsCore 10 fuel n ds) = decimalValue n ds := by
  induction fuel with
  | zero => intro n ds h; omega
  | succ fuel ih =>
    intro n ds hn hds
    have hk := digitChar_digit (Nat.mod_lt n (by norm_num : 10 > 0))
    have hds2 : ∀ c ∈ Nat.digitChar (n % 10) :: ds, '0' ≤ c ∧ c ≤ '9' := by
      intro x hx
      rcases List.mem_cons.1 hx with rfl | hx
      · exact hk.1
      · exact hds x hx
    have hval : decimalValue (n / 10) (Nat.digitChar (n % 10) :: ds) = decimalValue n ds := by
      show decimalValue (n / 10 * 10 + ((Nat.digitChar (n % 10)).toNat - '0'.toNat)) ds = _
      rw [hk.2]
      congr 1
      omega
    rw [Nat.toDigitsCore]
    by_cases h0 : n / 10 = 0
    · simp only [h0, if_true]
      refine ⟨hds2, ?_⟩
      rw [← hval, h0]
    · simp only [h0, if_false]
      have := ih (n / 10) (Nat.digitChar (n % 10) :: ds) (by omega) hds2
      exact ⟨this.1, this.2.trans hval⟩

theorem toString_toList_digits (n : Nat) :
    (toString n).toList ≠ [] ∧ (∀ c ∈ (toString n).toList, '0' ≤ c ∧ c ≤ '9') ∧
      decimalValue 0 (toString n).toList = n := by
  have h : (toString n).toList = Nat.toDigitsCore 10 (n + 1) n [] := rfl
  have hd := toDigitsCore_digits (n + 1) n [] (by omega) (by simp)
  rw [h]
  refine ⟨?_, hd.1, hd.2⟩
  rw [Nat.toDigitsCore]
  split
  · simp
  · intro hnil
    have := congrArg List.length hnil
    rw [Nat.toDigitsCore_lens_eq] at this
    simp at this

theorem digit_ne_sign {c : Char} (h : '0' ≤ c ∧ c ≤ '9') : c ≠ '+' ∧ c ≠ '-' := by
  constructor <;> rintro rfl <;> exact absurd h.1 (by decide)

theorem ParseUint_digits (l : List Char) (hne : l ≠ [])
    (hd : ∀ c ∈ l, '0' ≤ c ∧ c ≤ '9') (hv : decimalValue 0 l ≤ 2 ^ 32 - 1) :
    ParseUint l = .ok (decimalValue 0 l) := by
  rw [ParseUint, if_neg hne]
  exact parseUintLoop_digits l 0 hd hv

theorem ParseInt_toString (n : Nat) (hn : n ≤ 2 ^ 31 - 1) :
    ParseInt (toString n) = .ok (n : Int) := by
  obtain ⟨hne, hd, hv⟩ := toString_toList_digits n
  cases hl : (toString n).toList with
  | nil => exact absurd hl hne
  | cons c cs =>
    rw [hl] at hd hv
    have hc := digit_ne_sign (hd c (List.mem_cons_self _ _))
    have hu := ParseUint_digits (c :: cs) (by simp) hd (by rw [hv]; omega)
    rw [hv] at hu
    simp only [ParseInt, hl, hc.1, hc.2, if_false, hu]
    rw [if_neg (by omega), if_neg (by simp)]

theorem ParseInt_neg_toString (n : Nat) (hn : n ≤ 2 ^ 31) :
    ParseInt ("-" ++ toString n) = .ok (-(n : Int)) := by
  obtain ⟨hne, hd, hv⟩ := toString_toList_digits n
  have hl : ("-" ++ toString n).toList = '-' :: (toString n).toList := by
    simp [String.toList]
  have hu := ParseUint_digits (toString n).toList hne hd (by rw [hv]; omega)
  rw [hv] at hu
  simp only [ParseInt, hl, show ('-' : Char) ≠ '+' by decide, if_false, if_true, hu]
  rw [if_neg (by simp), if_neg (by omega)]

theorem ParseInt_range {s : String} {r : Int} (h : ParseInt s = .ok r) :
    -2 ^ 31 ≤ r ∧ r ≤ 2 ^ 31 - 1 := by
  unfold ParseInt at h
  cases hl : s.toList with
  | nil =>
    simp only [hl] at h
    cases h
  | cons c cs =>
    simp only [hl] at h
    cases hu : ParseUint (if c = '+' then cs else if c = '-' then cs else c :: cs) with
    | error k => cases k <;> simp only [hu] at h <;> cases h
    | ok un =>
      simp only [hu] at h
      by_cases hneg : c = '-'
      · simp only [hneg, not_true_eq_false, false_and, true_and, if_true, if_false] at h
        split at h
        · cases h
        · cases h
          constructor <;> omega
      · simp only [hneg, not_false_eq_true, false_and, true_and, if_true, if_false] at h
        split at h
        · cases h
        · cases h
          constructor <;> omega

theorem toInt32_of_range {r : Int} (h : -2 ^ 31 ≤ r ∧ r ≤ 2 ^ 31 - 1) : toInt32 r = r := by
  unfold toInt32
  omega

theorem ParseInt_error_form {s : String} {e : GoError} (h : ParseInt s = .error e) :
    ∃ k, e = .numError "ParseInt" s k := by
  unfold ParseInt at h
  split at h
  · cases h; exact ⟨_, rfl⟩
  · simp only at h
    split at h
    · cases h; exact ⟨_, rfl⟩
    · cases h; exact ⟨_, rfl⟩
    · split at h
      · cases h; exact ⟨_, rfl⟩
      · split at h
        · cases h; exact ⟨_, rfl⟩
        · split at h <;> cases h

theorem ParseUint_ok_digits {l : List Char} {v : Nat} (h : ParseUint l = .ok v) :
    l ≠ [] ∧ ∀ c ∈ l, c.isDigit = true := by
  unfold ParseUint at h
  split at h
  · cases h
  · rename_i hne
    exact ⟨hne, fun c hc => (digit_iff_isDigit c).1 (parseUintLoop_ok_digits l 0 v h c hc)⟩

theorem isNumeric_of_ParseInt_ok {s : String} {r : Int} (h : ParseInt s = .ok r) :
    isNumeric s = true := by
  unfold ParseInt at h
  unfold isNumeric
  split at h
  · cases h
  · rename_i c cs hl
    simp only at h
    split at h
    · cases h
    · cases h
    · rename_i un hu
      obtain ⟨hne, hd⟩ := ParseUint_ok_digits hu
      by_cases hp : c = '+'
      · simp only [hp, if_true] at hd hne
        simp [hp, hd, hne]
        exact hd
      · by_cases hm : c = '-'
        · simp only [hm] at hd hne
          simp [hm] at hd hne ⊢
          exact ⟨hne, hd⟩
        · simp only [hp, hm, if_false] at hd
          simp only [hp, hm, or_self, if_false]
          exact List.all_eq_true.2 hd

theorem caPoolSource_ok {cp : CaPool} (h : ¬ (cp.ConfigMap.isSome ∧ cp.Secret.isSome)) :
    ∃ source, caPoolSource cp = .ok source := by
  obtain ⟨cm, sec, key, mountPath⟩ := cp
  cases cm <;> cases sec <;> simp [caPoolSource] at h ⊢

/-! ## Replica-count resolution (C8, C9) -/

/-- C8, as stated, fails: with the non-numeric replica string `abc` and a
cluster that already holds a connector, the call returns nil, not an error
(it issues no creation request). -/
theorem invalid_replica_count_unnoticed_on_existing :
    (sampleWorld [scenarioDeployment] "tok-123" "abc").getenv "CLOUDFLARED_REPLICA_COUNT"
      = "abc" ∧
    isNumeric "abc" = false ∧
    CreateControlledCloudflaredIfNotExist (sampleWorld [scenarioDeployment] "tok-123" "abc")
        "tun" (some scenarioPool) =
      { calls := [.List (listOptions "tun")], outcome := .returned none } :=
  ⟨rfl, rfl, rfl⟩

/-- C8, amended: when the configured replica string is the decimal
representation of an integer `n` with `0 ≤ n ≤ 2^31 - 1`, every deployment the
call submits has replica count exactly `n`, and when provisioning reaches the
replica step (no existing deployment, usable CA pool, token issued) one
creation request is issued, with replica count `n`.  When the configured value
is empty or is not an optional sign followed by decimal digits, no creation
request is issued whatever the other inputs are; the call returns an error for
every non-nil pool unless the list query returns an existing deployment; and a
call that reaches the replica step returns the parse error wrapped as
`invalid replica count`. -/
theorem replica_count_resolution (w : World) (ns : String) :
    (∀ (n : Nat) (caPool : Option CaPool) (d : Deployment), n ≤ 2 ^ 31 - 1 →
      w.getenv "CLOUDFLARED_REPLICA_COUNT" = toString n →
      Call.Create d ∈ (CreateControlledCloudflaredIfNotExist w ns caPool).calls →
      d.Spec.Replicas = some (n : Int)) ∧
    (∀ (n : Nat) (caPool : CaPool) (token : String), n ≤ 2 ^ 31 - 1 →
      w.getenv "CLOUDFLARED_REPLICA_COUNT" = toString n →
      w.list (listOptions ns) = .ok [] →
      ¬ (caPool.ConfigMap.isSome ∧ caPool.Secret.isSome) →
      w.fetchTunnelToken = .ok token →
      ∃ d, (CreateControlledCloudflaredIfNotExist w ns (some caPool)).calls =
          [.List (listOptions ns), .FetchTunnelToken, .Create d] ∧
        d.Spec.Replicas = some (n : Int)) ∧
    ((w.getenv "CLOUDFLARED_REPLICA_COUNT" = "" ∨
        isNumeric (w.getenv "CLOUDFLARED_REPLICA_COUNT") = false) →
      (∀ (caPool : Option CaPool) (d : Deployment),
        Call.Create d ∉ (CreateControlledCloudflaredIfNotExist w ns caPool).calls) ∧
      (∀ (caPool : CaPool),
        (∀ items, w.list (listOptions ns) = .ok items → items = []) →
        ∃ err, (CreateControlledCloudflaredIfNotExist w ns (some caPool)).outcome =
          .returned (some err)) ∧
      (∀ (caPool : CaPool) (token : String),
        w.list (listOptions ns) = .ok [] →
        ¬ (caPool.ConfigMap.isSome ∧ caPool.Secret.isSome) →
        w.fetchTunnelToken = .ok token →
        ∃ k, (CreateControlledCloudflaredIfNotExist w ns (some caPool)).outcome =
          .returned (some (.wrap
            (.numError "ParseInt" (w.getenv "CLOUDFLARED_REPLICA_COUNT") k)
            "invalid replica count")))) := by
  refine ⟨?_, ?_, ?_⟩
  · intro n caPool d hn henv hmem
    obtain ⟨cp, source, token, r, -, -, -, -, hp, hd⟩ := calls_of_create_mem hmem
    rw [henv, ParseInt_toString n hn] at hp
    cases hp
    subst hd
    show some (toInt32 (n : Int)) = some (n : Int)
    rw [toInt32_of_range (by constructor <;> omega)]
  · intro n caPool token hn henv hl hpool ht
    obtain ⟨source, hs⟩ := caPoolSource_ok hpool
    have hp : ParseInt (w.getenv "CLOUDFLARED_REPLICA_COUNT") = .ok (n : Int) := by
      rw [henv]
      exact ParseInt_toString n hn
    refine ⟨_, run_of_reaching_create hl hs ht hp, ?_⟩
    show some (toInt32 (n : Int)) = some (n : Int)
    rw [toInt32_of_range (by constructor <;> omega)]
  · intro hbad
    have hnum : isNumeric (w.getenv "CLOUDFLARED_REPLICA_COUNT") = false := by
      rcases hbad with h | h
      · rw [h]
        rfl
      · exact h
    have herr : ∃ k, ParseInt (w.getenv "CLOUDFLARED_REPLICA_COUNT") =
        .error (.numError "ParseInt" (w.getenv "CLOUDFLARED_REPLICA_COUNT") k) := by
      cases hp : ParseInt (w.getenv "CLOUDFLARED_REPLICA_COUNT") with
      | ok r =>
        rw [isNumeric_of_ParseInt_ok hp] at hnum
        cases hnum
      | error e =>
        obtain ⟨k, hk⟩ := ParseInt_error_form hp
        exact ⟨k, by rw [hk]⟩
    obtain ⟨k, hk⟩ := herr
    refine ⟨?_, ?_, ?_⟩
    · intro caPool d hmem
      obtain ⟨_, _, _, r, -, -, -, -, hp, -⟩ := calls_of_create_mem hmem
      rw [hk] at hp
      cases hp
    · intro caPool hempty
      unfold CreateControlledCloudflaredIfNotExist
      cases hl : w.list (listOptions ns) with
      | error e => simp [hl]
      | ok items =>
        cases hempty items hl
        cases hs : caPoolSource caPool with
        | error e => simp [hl, hs]
        | ok source =>
          cases ht : w.fetchTunnelToken with
          | error e => simp [hl, hs, ht]
          | ok token => simp [hl, hs, ht, hk]
    · intro caPool token hl hpool ht
      obtain ⟨source, hs⟩ := caPoolSource_ok hpool
      refine ⟨k, ?_⟩
      unfold CreateControlledCloudflaredIfNotExist
      simp [hl, hs, ht, hk]

/-- C8, amended, at the replica strings `3` (a creation request with three
replicas) and `abc` (no creation request; an error, which on the scenario's
other inputs is the wrapped parse error). -/
theorem replica_count_resolution_witness :
    ((sampleWorld [] "tok-123" "3").getenv "CLOUDFLARED_REPLICA_COUNT" = toString 3 ∧
      ∃ d, (CreateControlledCloudflaredIfNotExist (sampleWorld [] "tok-123" "3") "tun"
            (some scenarioPool)).calls =
          [.List (listOptions "tun"), .FetchTunnelToken, .Create d] ∧
        d.Spec.Replicas = some ((3 : Nat) : Int)) ∧
    (isNumeric ((sampleWorld [] "tok-123" "abc").getenv "CLOUDFLARED_REPLICA_COUNT") = false ∧
      (∀ (caPool : Option CaPool) (d : Deployment), Call.Create d ∉
        (CreateControlledCloudflaredIfNotExist (sampleWorld [] "tok-123" "abc") "tun"
          caPool).calls) ∧
      (∃ err, (CreateControlledCloudflaredIfNotExist (sampleWorld [] "tok-123" "abc") "tun"
            (some bothSourcesPool)).outcome = .returned (some err)) ∧
      ∃ k, (CreateControlledCloudflaredIfNotExist (sampleWorld [] "tok-123" "abc") "tun"
            (some scenarioPool)).outcome =
          .returned (some (.wrap (.numError "ParseInt"
            ((sampleWorld [] "tok-123" "abc").getenv "CLOUDFLARED_REPLICA_COUNT") k)
            "invalid replica count"))) :=
  ⟨⟨rfl, (replica_count_resolution (sampleWorld [] "tok-123" "3") "tun").2.1 3 scenarioPool
      "tok-123" (by norm_num) rfl rfl (by decide) rfl⟩,
    ⟨rfl,
      ((replica_count_resolution (sampleWorld [] "tok-123" "abc") "tun").2.2 (Or.inr rfl)).1,
      ((replica_count_resolution (sampleWorld [] "tok-123" "abc") "tun").2.2 (Or.inr rfl)).2.1
        bothSourcesPool (fun items h => by cases h; rfl),
      ((replica_count_resolution (sampleWorld [] "tok-123" "abc") "tun").2.2 (Or.inr rfl)).2.2
        scenarioPool "tok-123" rfl (by decide) rfl⟩⟩

/-- C9, as stated, fails: with the replica string `-1` (and the scenario's other
inputs) the call returns nil after issuing a creation request whose deployment
has replica count `-1`. -/
theorem negative_replica_count_is_submitted :
    CreateControlledCloudflaredIfNotExist (sampleWorld [] "tok-123" "-1") "tun"
        (some scenarioPool) =
      { calls := [.List (listOptions "tun"), .FetchTunnelToken,
          .Create negativeReplicasDeployment]
        outcome := .returned none } ∧
    negativeReplicasDeployment.Spec.Replicas = some (-1) :=
  ⟨rfl, rfl⟩

/-- C9, amended: the replica count is parsed as a signed 32-bit integer.  For
every configured replica string, any deployment submitted for creation has the
parsed replica count, which lies between `-2^31` and `2^31 - 1`; and a string
denoting a negative integer `-n` in that range (a minus sign followed by the
decimal representation of `n`, `1 ≤ n ≤ 2^31`) is accepted: when provisioning
reaches the replica step, one creation request is issued, with replica count
`-n`. -/
theorem replica_count_is_int32 (w : World) (ns : String) :
    (∀ (caPool : Option CaPool) (d : Deployment),
      Call.Create d ∈ (CreateControlledCloudflaredIfNotExist w ns caPool).calls →
      ∃ r : Int, ParseInt (w.getenv "CLOUDFLARED_REPLICA_COUNT") = .ok r ∧
        d.Spec.Replicas = some r ∧ -2 ^ 31 ≤ r ∧ r ≤ 2 ^ 31 - 1) ∧
    (∀ (n : Nat) (caPool : CaPool) (token : String), 1 ≤ n → n ≤ 2 ^ 31 →
      w.getenv "CLOUDFLARED_REPLICA_COUNT" = "-" ++ toString n →
      w.list (listOptions ns) = .ok [] →
      ¬ (caPool.ConfigMap.isSome ∧ caPool.Secret.isSome) →
      w.fetchTunnelToken = .ok token →
      ∃ d, (CreateControlledCloudflaredIfNotExist w ns (some caPool)).calls =
          [.List (listOptions ns), .FetchTunnelToken, .Create d] ∧
        d.Spec.Replicas = some (-(n : Int))) := by
  constructor
  · intro caPool d hmem
    obtain ⟨cp, source, token, r, -, -, -, -, hp, hd⟩ := calls_of_create_mem hmem
    have hr := ParseInt_range hp
    refine ⟨r, hp, ?_, hr⟩
    subst hd
    show some (toInt32 r) = some r
    rw [toInt32_of_range hr]
  · intro n caPool token _ hn henv hl hpool ht
    obtain ⟨source, hs⟩ := caPoolSource_ok hpool
    have hp : ParseInt (w.getenv "CLOUDFLARED_REPLICA_COUNT") = .ok (-(n : Int)) := by
      rw [henv]
      exact ParseInt_neg_toString n hn
    refine ⟨_, run_of_reaching_create hl hs ht hp, ?_⟩
    show some (toInt32 (-(n : Int))) = some (-(n : Int))
    rw [toInt32_of_range (by constructor <;> omega)]

/-- C9, amended, at the replica string `-1` on the scenario's other inputs. -/
theorem replica_count_is_int32_witness :
    Call.Create negativeReplicasDeployment ∈
      (CreateControlledCloudflaredIfNotExist (sampleWorld [] "tok-123" "-1") "tun"
        (some scenarioPool)).calls ∧
    (∃ r : Int,
      ParseInt ((sampleWorld [] "tok-123" "-1").getenv "CLOUDFLARED_REPLICA_COUNT") = .ok r ∧
        negativeReplicasDeployment.Spec.Replicas = some r ∧ -2 ^ 31 ≤ r ∧ r ≤ 2 ^ 31 - 1) ∧
    (sampleWorld [] "tok-123" "-1").getenv "CLOUDFLARED_REPLICA_COUNT" = "-" ++ toString 1 ∧
    ∃ d, (CreateControlledCloudflaredIfNotExist (sampleWorld [] "tok-123" "-1") "tun"
          (some scenarioPool)).calls =
        [.List (listOptions "tun"), .FetchTunnelToken, .Create d] ∧
      d.Spec.Replicas = some (-((1 : Nat) : Int)) :=
  ⟨by decide,
    (replica_count_is_int32 (sampleWorld [] "tok-123" "-1") "tun").1 (some scenarioPool)
      negativeReplicasDeployment (by decide),
    rfl,
    (replica_count_is_int32 (sampleWorld [] "tok-123" "-1") "tun").2 1 scenarioPool "tok-123"
      (by norm_num) (by norm_num) rfl rfl (by decide) rfl⟩

/-! ## The runs of the provisioning call, step by step -/

/-- A failing list query ends the call with the wrapped error. -/
theorem run_of_list_error {w : World} {ns : String} {e : GoError}
    (hl : w.list (listOptions ns) = .error e) (caPool : Option CaPool) :
    CreateControlledCloudflaredIfNotExist w ns caPool =
      { calls := [.List (listOptions ns)]
        outcome := .returned (some (.wrap e
          ("list controlled-cloudflared-connector in namespace " ++ ns))) } := by
  unfold CreateControlledCloudflaredIfNotExist
  simp only [hl]

/-- A list query that returns a deployment ends the call with nil. -/
theorem run_of_existing {w : World} {ns : String} {items : List Deployment}
    (hl : w.list (listOptions ns) = .ok items) (hsome : 0 < items.length)
    (caPool : Option CaPool) :
    CreateControlledCloudflaredIfNotExist w ns caPool =
      { calls := [.List (listOptions ns)], outcome := .returned none } := by
  unfold CreateControlledCloudflaredIfNotExist
  simp [hl, hsome]

/-- On an empty list result, an unusable CA pool ends the call with its error. -/
theorem run_of_pool_error {w : World} {ns : String} {cp : CaPool} {e : GoError}
    (hl : w.list (listOptions ns) = .ok []) (hs : caPoolSource cp = .error e) :
    CreateControlledCloudflaredIfNotExist w ns (some cp) =
      { calls := [.List (listOptions ns)], outcome := .returned (some e) } := by
  unfold CreateControlledCloudflaredIfNotExist
  simp [hl, hs]

/-- On an empty list result and a usable CA pool, a failing token fetch ends
the call with the wrapped error. -/
theorem run_of_fetch_error {w : World} {ns : String} {cp : CaPool}
    {source : Option VolumeSource} {e : GoError}
    (hl : w.list (listOptions ns) = .ok []) (hs : caPoolSource cp = .ok source)
    (ht : w.fetchTunnelToken = .error e) :
    CreateControlledCloudflaredIfNotExist w ns (some cp) =
      { calls := [.List (listOptions ns), .FetchTunnelToken]
        outcome := .returned (some (.wrap e "fetch tunnel token")) } := by
  unfold CreateControlledCloudflaredIfNotExist
  simp [hl, hs, ht]

/-- After the token fetch, a replica count that does not parse ends the call
with the wrapped error. -/
theorem run_of_parse_error {w : World} {ns : String} {cp : CaPool}
    {source : Option VolumeSource} {token : String} {e : GoError}
    (hl : w.list (listOptions ns) = .ok []) (hs : caPoolSource cp = .ok source)
    (ht : w.fetchTunnelToken = .ok token)
    (hp : ParseInt (w.getenv "CLOUDFLARED_REPLICA_COUNT") = .error e) :
    CreateControlledCloudflaredIfNotExist w ns (some cp) =
      { calls := [.List (listOptions ns), .FetchTunnelToken]
        outcome := .returned (some (.wrap e "invalid replica count")) } := by
  unfold CreateControlledCloudflaredIfNotExist
  simp [hl, hs, ht, hp]

/-- When the creation step is reached, the call ends with nil if the creation
call succeeds and with the wrapped error if it fails. -/
theorem outcome_of_reaching_create {w : World} {ns : String} {cp : CaPool}
    {source : Option VolumeSource} {token : String} {replicas : Int}
    (hl : w.list (listOptions ns) = .ok []) (hs : caPoolSource cp = .ok source)
    (ht : w.fetchTunnelToken = .ok token)
    (hp : ParseInt (w.getenv "CLOUDFLARED_REPLICA_COUNT") = .ok replicas) :
    (CreateControlledCloudflaredIfNotExist w ns (some cp)).outcome =
      .returned ((w.create (cloudflaredConnectDeploymentTemplating w.getenv token ns
        (toInt32 replicas) (extraVolumes source) (extraVolumeMounts cp source))).map
          fun e => .wrap e "create controlled-cloudflared-connector deployment") := by
  unfold CreateControlledCloudflaredIfNotExist
  simp only [hl, hs, ht, hp, List.length_nil, gt_iff_lt, lt_self_iff_false, if_false]
  split <;> rename_i hc <;> simp [hc]

/-- The error of the CA-pool step is the both-sources error, and it arises
exactly when both sources are set. -/
theorem caPoolSource_error_iff (cp : CaPool) (e : GoError) :
    caPoolSource cp = .error e ↔
      (cp.ConfigMap.isSome ∧ cp.Secret.isSome) ∧
        e = .new "Only one of --capool-config-map or --capool-secret may be specified" := by
  obtain ⟨cm, sec, key, mountPath⟩ := cp
  cases cm <;> cases sec <;> simp [caPoolSource, eq_comm]

/-! ## Existence check and creation agree (C11) -/

/-- Every trace starts with the existence query. -/
theorem calls_head (w : World) (ns : String) (caPool : Option CaPool) :
    (CreateControlledCloudflaredIfNotExist w ns caPool).calls.head? =
      some (.List (listOptions ns)) := by
  unfold CreateControlledCloudflaredIfNotExist
  simp only
  split
  · rfl
  · split
    · rfl
    · split
      · rfl
      · split
        · rfl
        · split
          · rfl
          · split
            · rfl
            · split <;> rfl

/-- A store answers a query for one required label with the deployments of the
queried namespace that carry that label. -/
theorem mem_storeList_single (store : List Deployment) (ns key value : String)
    (d : Deployment) :
    d ∈ storeList store { Namespace := ns, LabelSelector := [(key, value)] } ↔
      d ∈ store ∧ (ns = "" ∨ d.ObjectMeta.Namespace = ns) ∧
        d.ObjectMeta.Labels.lookup key = some value := by
  unfold storeList
  rw [List.mem_filter]
  simp [selectorMatches]

/-- C11: the existence check and the creation range over the same identity
space.  For every namespace, the first call of every invocation is the list
query for that namespace with the selector that requires exactly the label
`strrl.dev/cloudflare-tunnel-ingress-controller = controlled-cloudflared-connector`;
every deployment the call submits has that same namespace and carries that
label; a store answers the query with exactly its deployments of that
namespace that carry the label; hence on every store that contains the
submitted deployment, a second call with the same namespace (whatever its
other inputs) finds it, returns nil and makes no call but the list query: no
second fetch, no second creation. -/
theorem created_deployment_is_found (w : World) (ns : String) (caPool : Option CaPool)
    (d : Deployment)
    (hcreate : Call.Create d ∈ (CreateControlledCloudflaredIfNotExist w ns caPool).calls) :
    (∀ (w2 : World) (caPool2 : Option CaPool),
      (CreateControlledCloudflaredIfNotExist w2 ns caPool2).calls.head? =
        some (.List
          { Namespace := ns
            LabelSelector :=
              [ ("strrl.dev/cloudflare-tunnel-ingress-controller",
                  "controlled-cloudflared-connector") ] })) ∧
    d.ObjectMeta.Namespace = ns ∧
    d.ObjectMeta.Labels.lookup "strrl.dev/cloudflare-tunnel-ingress-controller" =
      some "controlled-cloudflared-connector" ∧
    (∀ (store : List Deployment) (d2 : Deployment),
      d2 ∈ storeList store
          { Namespace := ns
            LabelSelector :=
              [ ("strrl.dev/cloudflare-tunnel-ingress-controller",
                  "controlled-cloudflared-connector") ] } ↔
        d2 ∈ store ∧ (ns = "" ∨ d2.ObjectMeta.Namespace = ns) ∧
          d2.ObjectMeta.Labels.lookup "strrl.dev/cloudflare-tunnel-ingress-controller" =
            some "controlled-cloudflared-connector") ∧
    ∀ (store : List Deployment) (w2 : World) (caPool2 : Option CaPool), d ∈ store →
      (∀ opts, w2.list opts = .ok (storeList store opts)) →
      CreateControlledCloudflaredIfNotExist w2 ns caPool2 =
        { calls :=
            [ .List
                { Namespace := ns
                  LabelSelector :=
                    [ ("strrl.dev/cloudflare-tunnel-ingress-controller",
                        "controlled-cloudflared-connector") ] } ]
          outcome := .returned none } := by
  obtain ⟨cp, source, token, replicas, -, -, -, -, -, hd⟩ := calls_of_create_mem hcreate
  have hns : d.ObjectMeta.Namespace = ns := by rw [hd]; rfl
  have hlabel : d.ObjectMeta.Labels.lookup "strrl.dev/cloudflare-tunnel-ingress-controller" =
      some "controlled-cloudflared-connector" := by
    rw [hd]
    rfl
  refine ⟨fun w2 caPool2 => calls_head w2 ns caPool2, hns, hlabel,
    fun store d2 => mem_storeList_single store ns _ _ d2, ?_⟩
  intro store w2 caPool2 hmem hl
  have hfound : d ∈ storeList store (listOptions ns) :=
    (mem_storeList_single store ns _ _ d).2 ⟨hmem, Or.inr hns, hlabel⟩
  exact run_of_existing (hl (listOptions ns)) (List.length_pos_of_mem hfound) caPool2

/-- C11 at the scenario: the first call submits the scenario's deployment; on
the store that holds it next to an unrelated deployment, a second call in
namespace `tun`, with another token and a nil pool, only queries; on a store
that holds only the unrelated deployment the query finds nothing and the call
goes on to fetch and create. -/
theorem created_deployment_is_found_witness :
    Call.Create scenarioDeployment ∈
      (CreateControlledCloudflaredIfNotExist (sampleWorld [] "tok-123" "2") "tun"
        (some scenarioPool)).calls ∧
    scenarioDeployment ∈ [unrelatedDeployment, scenarioDeployment] ∧
    storeList [unrelatedDeployment, scenarioDeployment] (listOptions "tun") =
      [scenarioDeployment] ∧
    CreateControlledCloudflaredIfNotExist
        (storeWorld [unrelatedDeployment, scenarioDeployment] "tok-456" "2") "tun" none =
      { calls :=
          [ .List
              { Namespace := "tun"
                LabelSelector :=
                  [ ("strrl.dev/cloudflare-tunnel-ingress-controller",
                      "controlled-cloudflared-connector") ] } ]
        outcome := .returned none } ∧
    CreateControlledCloudflaredIfNotExist (storeWorld [unrelatedDeployment] "tok-123" "2")
        "tun" (some scenarioPool) =
      { calls := [.List (listOptions "tun"), .FetchTunnelToken, .Create scenarioDeployment]
        outcome := .returned none } :=
  ⟨by decide, by decide, by decide,
    (created_deployment_is_found (sampleWorld [] "tok-123" "2") "tun" (some scenarioPool)
      scenarioDeployment (by decide)).2.2.2.2 [unrelatedDeployment, scenarioDeployment]
      (storeWorld [unrelatedDeployment, scenarioDeployment] "tok-456" "2") none (by decide)
      (fun _ => rfl),
    by decide⟩

/-! ## Failures (C12, C13, C15) -/

/-- Every trace holds at most one creation request. -/
theorem create_calls_le_one (w : World) (ns : String) (caPool : Option CaPool) :
    ((CreateControlledCloudflaredIfNotExist w ns caPool).calls.filter Call.isCreate).length
      ≤ 1 := by
  unfold CreateControlledCloudflaredIfNotExist
  simp only
  split
  · simp [Call.isCreate]
  · split
    · simp [Call.isCreate]
    · split
      · simp [Call.isCreate]
      · split
        · simp [Call.isCreate]
        · split
          · simp [Call.isCreate]
          · split
            · simp [Call.isCreate]
            · split <;> simp [Call.isCreate]

/-- C12: in every call at most one creation request is issued; none is issued
when the list query fails, when the token fetch fails, or when the replica
count does not parse; and a failing list query makes the call return an error
after the list query alone, with no token fetch. -/
theorem no_partial_workload (w : World) (ns : String) (caPool : Option CaPool) :
    ((CreateControlledCloudflaredIfNotExist w ns caPool).calls.filter Call.isCreate).length
      ≤ 1 ∧
    (∀ e, w.list (listOptions ns) = .error e →
      (∃ err, (CreateControlledCloudflaredIfNotExist w ns caPool).outcome =
        .returned (some err)) ∧
      (CreateControlledCloudflaredIfNotExist w ns caPool).calls = [.List (listOptions ns)] ∧
      Call.FetchTunnelToken ∉ (CreateControlledCloudflaredIfNotExist w ns caPool).calls ∧
      ∀ d, Call.Create d ∉ (CreateControlledCloudflaredIfNotExist w ns caPool).calls) ∧
    (∀ e, w.fetchTunnelToken = .error e →
      ∀ d, Call.Create d ∉ (CreateControlledCloudflaredIfNotExist w ns caPool).calls) ∧
    (∀ e, ParseInt (w.getenv "CLOUDFLARED_REPLICA_COUNT") = .error e →
      ∀ d, Call.Create d ∉ (CreateControlledCloudflaredIfNotExist w ns caPool).calls) := by
  refine ⟨create_calls_le_one w ns caPool, ?_, ?_, ?_⟩
  · intro e hl
    rw [run_of_list_error hl caPool]
    simp
  · intro e ht d hmem
    obtain ⟨_, _, _, _, -, -, -, ht2, -, -⟩ := calls_of_create_mem hmem
    rw [ht] at ht2
    cases ht2
  · intro e hp d hmem
    obtain ⟨_, _, _, _, -, -, -, -, hp2, -⟩ := calls_of_create_mem hmem
    rw [hp] at hp2
    cases hp2

/-- C12 at a failing list query, at a failing token fetch and at the replica
string `abc`, on the scenario's other inputs. -/
theorem no_partial_workload_witness :
    (CreateControlledCloudflaredIfNotExist
        (listFailureWorld (.external "connection refused") "tok-123" "2") "tun"
        (some scenarioPool)).calls = [.List (listOptions "tun")] ∧
    (∀ d, Call.Create d ∉
      (CreateControlledCloudflaredIfNotExist
        (fetchFailureWorld (.external "unauthorized") "2") "tun" (some scenarioPool)).calls) ∧
    (∀ d, Call.Create d ∉
      (CreateControlledCloudflaredIfNotExist (sampleWorld [] "tok-123" "abc") "tun"
        (some scenarioPool)).calls) :=
  ⟨((no_partial_workload (listFailureWorld (.external "connection refused") "tok-123" "2")
        "tun" (some scenarioPool)).2.1 (.external "connection refused") rfl).2.1,
    (no_partial_workload (fetchFailureWorld (.external "unauthorized") "2") "tun"
        (some scenarioPool)).2.2.1 (.external "unauthorized") rfl,
    (no_partial_workload (sampleWorld [] "tok-123" "abc") "tun"
        (some scenarioPool)).2.2.2 (.numError "ParseInt" "abc" .ErrSyntax) rfl⟩

/-- C13, as stated, fails: the resolver returns a non-nil reference when both
names are given, and with an empty list result, an issued token, the valid
replica count `2` and a creation call that would succeed, the call returns the
error of the trust-volume step. -/
theorem trust_volume_step_fails_on_both_sources :
    GetCaPoolOptions (some "ca-bundle") (some "ca-secret") none none = some bothSourcesPool ∧
    (sampleWorld [] "tok-123" "2").list (listOptions "tun") = .ok [] ∧
    (sampleWorld [] "tok-123" "2").fetchTunnelToken = .ok "tok-123" ∧
    ParseInt ((sampleWorld [] "tok-123" "2").getenv "CLOUDFLARED_REPLICA_COUNT") = .ok 2 ∧
    CreateControlledCloudflaredIfNotExist (sampleWorld [] "tok-123" "2") "tun"
        (GetCaPoolOptions (some "ca-bundle") (some "ca-secret") none none) =
      { calls := [.List (listOptions "tun")]
        outcome := .returned (some (.new
          "Only one of --capool-config-map or --capool-secret may be specified")) } :=
  ⟨rfl, rfl, rfl, rfl, rfl⟩

/-- C13, amended: for every non-nil reference the resolver returns when exactly
one of the config-map name and the secret name is given (with any key and mount
path), if the list query returns no deployment, the token fetch succeeds, the
replica string parses and the creation call succeeds, the call returns nil;
for the reference the resolver returns when both names are given, the
trust-volume step returns the configuration error. -/
theorem trust_volume_step_outcome (w : World) (ns : String)
    (configMap secret key mountPath : Option String) (cp : CaPool) (token : String)
    (replicas : Int)
    (hget : GetCaPoolOptions configMap secret key mountPath = some cp)
    (hl : w.list (listOptions ns) = .ok [])
    (ht : w.fetchTunnelToken = .ok token)
    (hp : ParseInt (w.getenv "CLOUDFLARED_REPLICA_COUNT") = .ok replicas)
    (hc : ∀ d, w.create d = none) :
    (¬ (configMap.isSome ∧ secret.isSome) →
      (CreateControlledCloudflaredIfNotExist w ns (some cp)).outcome = .returned none) ∧
    (configMap.isSome ∧ secret.isSome →
      (CreateControlledCloudflaredIfNotExist w ns (some cp)).outcome =
        .returned (some (.new
          "Only one of --capool-config-map or --capool-secret may be specified"))) := by
  have hcm : cp.ConfigMap.isSome = configMap.isSome ∧ cp.Secret.isSome = secret.isSome := by
    cases configMap <;> cases secret <;> cases key <;> cases mountPath <;>
      simp [GetCaPoolOptions] at hget <;> subst hget <;> exact ⟨rfl, rfl⟩
  constructor
  · intro hone
    have hpool : ¬ (cp.ConfigMap.isSome ∧ cp.Secret.isSome) := by
      rw [hcm.1, hcm.2]
      exact hone
    obtain ⟨source, hs⟩ := caPoolSource_ok hpool
    rw [outcome_of_reaching_create hl hs ht hp, hc]
    rfl
  · intro hboth
    have hs := (caPoolSource_error_iff cp _).2 ⟨by rw [hcm.1, hcm.2]; exact hboth, rfl⟩
    rw [run_of_pool_error hl hs]

/-- C13, amended, at the scenario (config map `ca-bundle` alone). -/
theorem trust_volume_step_outcome_witness :
    GetCaPoolOptions (some "ca-bundle") none none none = some scenarioPool ∧
    (CreateControlledCloudflaredIfNotExist (sampleWorld [] "tok-123" "2") "tun"
      (some scenarioPool)).outcome = .returned none :=
  ⟨rfl,
    (trust_volume_step_outcome (sampleWorld [] "tok-123" "2") "tun" (some "ca-bundle") none
      none none scenarioPool "tok-123" 2 rfl rfl rfl rfl (fun _ => rfl)).1 (by decide)⟩

/-- C15: given a reference with both `ConfigMap` and `Secret` set, when the
list query succeeds with no deployment the call returns the both-sources error
after the list query alone: no `FetchTunnelToken` call and no `Create` call,
whatever the token source and the replica configuration are. -/
theorem both_sources_fail_before_fetch (w : World) (ns : String) (caPool : CaPool)
    (hboth : caPool.ConfigMap.isSome ∧ caPool.Secret.isSome)
    (hl : w.list (listOptions ns) = .ok []) :
    (CreateControlledCloudflaredIfNotExist w ns (some caPool)).outcome =
      .returned (some (.new
        "Only one of --capool-config-map or --capool-secret may be specified")) ∧
    (CreateControlledCloudflaredIfNotExist w ns (some caPool)).calls =
      [.List (listOptions ns)] ∧
    Call.FetchTunnelToken ∉ (CreateControlledCloudflaredIfNotExist w ns (some caPool)).calls ∧
    ∀ d, Call.Create d ∉ (CreateControlledCloudflaredIfNotExist w ns (some caPool)).calls := by
  rw [run_of_pool_error hl ((caPoolSource_error_iff caPool _).2 ⟨hboth, rfl⟩)]
  simp

/-- C15 at a pool with both sources, for a token source that fails and for an
invalid replica configuration. -/
theorem both_sources_fail_before_fetch_witness :
    (bothSourcesPool.ConfigMap.isSome ∧ bothSourcesPool.Secret.isSome) ∧
    (CreateControlledCloudflaredIfNotExist (fetchFailureWorld (.external "unauthorized") "2")
      "tun" (some bothSourcesPool)).calls = [.List (listOptions "tun")] ∧
    (CreateControlledCloudflaredIfNotExist (sampleWorld [] "tok-123" "abc")
      "tun" (some bothSourcesPool)).calls = [.List (listOptions "tun")] :=
  ⟨by decide,
    (both_sources_fail_before_fetch (fetchFailureWorld (.external "unauthorized") "2") "tun"
      bothSourcesPool (by decide) rfl).2.1,
    (both_sources_fail_before_fetch (sampleWorld [] "tok-123" "abc") "tun"
      bothSourcesPool (by decide) rfl).2.1⟩

/-! ## The errors the call returns (C14) -/

/-- C14, as stated, fails twice: the error returned for a pool with both
sources is built by `errors.New` and wraps no underlying error; and the
description of a list failure embeds the namespace, so the same underlying error
is returned under different descriptions in the namespaces `tun` and `prod`. -/
theorem error_without_cause_and_varying_description :
    ((CreateControlledCloudflaredIfNotExist (sampleWorld [] "tok-123" "2") "tun"
        (some bothSourcesPool)).outcome =
      .returned (some (.new
        "Only one of --capool-config-map or --capool-secret may be specified")) ∧
      (GoError.new
        "Only one of --capool-config-map or --capool-secret may be specified").cause = none) ∧
    ((CreateControlledCloudflaredIfNotExist
        (listFailureWorld (.external "connection refused") "tok-123" "2") "tun"
        (some scenarioPool)).outcome =
      .returned (some (.wrap (.external "connection refused")
        "list controlled-cloudflared-connector in namespace tun")) ∧
      (CreateControlledCloudflaredIfNotExist
        (listFailureWorld (.external "connection refused") "tok-123" "2") "prod"
        (some scenarioPool)).outcome =
      .returned (some (.wrap (.external "connection refused")
        "list controlled-cloudflared-connector in namespace prod")) ∧
      "list controlled-cloudflared-connector in namespace tun" ≠
        "list controlled-cloudflared-connector in namespace prod") :=
  ⟨⟨rfl, rfl⟩, rfl, rfl, by decide⟩

/-- C14, amended: every error the call returns is either the both-sources
configuration error, built by `errors.New` with no underlying error, or a wrap
that keeps the underlying error as its cause: a list failure `e` under the
description `list controlled-cloudflared-connector in namespace ` followed by
the namespace, a token-fetch failure under `fetch tunnel token`, a
replica-parse failure under `invalid replica count`, a creation failure under
`create controlled-cloudflared-connector deployment`; and each such failure,
when its step is reached, is returned as that wrap of exactly `e`. -/
theorem returned_error_forms (w : World) (ns : String) :
    (∀ (caPool : Option CaPool) (err : GoError),
      (CreateControlledCloudflaredIfNotExist w ns caPool).outcome = .returned (some err) →
      (∃ e, w.list (listOptions ns) = .error e ∧ err.cause = some e ∧
        err = .wrap e ("list controlled-cloudflared-connector in namespace " ++ ns)) ∨
      (err.cause = none ∧
        err = .new "Only one of --capool-config-map or --capool-secret may be specified") ∨
      (∃ e, w.fetchTunnelToken = .error e ∧ err.cause = some e ∧
        err = .wrap e "fetch tunnel token") ∨
      (∃ e, ParseInt (w.getenv "CLOUDFLARED_REPLICA_COUNT") = .error e ∧
        err.cause = some e ∧ err = .wrap e "invalid replica count") ∨
      (∃ e d, Call.Create d ∈ (CreateControlledCloudflaredIfNotExist w ns caPool).calls ∧
        w.create d = some e ∧ err.cause = some e ∧
        err = .wrap e "create controlled-cloudflared-connector deployment")) ∧
    (∀ (caPool : Option CaPool) (e : GoError), w.list (listOptions ns) = .error e →
      (CreateControlledCloudflaredIfNotExist w ns caPool).outcome =
        .returned (some (.wrap e
          ("list controlled-cloudflared-connector in namespace " ++ ns)))) ∧
    (∀ (cp : CaPool) (e : GoError), w.list (listOptions ns) = .ok [] →
      ¬ (cp.ConfigMap.isSome ∧ cp.Secret.isSome) → w.fetchTunnelToken = .error e →
      (CreateControlledCloudflaredIfNotExist w ns (some cp)).outcome =
        .returned (some (.wrap e "fetch tunnel token"))) ∧
    (∀ (cp : CaPool) (token : String) (e : GoError), w.list (listOptions ns) = .ok [] →
      ¬ (cp.ConfigMap.isSome ∧ cp.Secret.isSome) → w.fetchTunnelToken = .ok token →
      ParseInt (w.getenv "CLOUDFLARED_REPLICA_COUNT") = .error e →
      (CreateControlledCloudflaredIfNotExist w ns (some cp)).outcome =
        .returned (some (.wrap e "invalid replica count"))) ∧
    (∀ (caPool : Option CaPool) (d : Deployment) (e : GoError),
      Call.Create d ∈ (CreateControlledCloudflaredIfNotExist w ns caPool).calls →
      w.create d = some e →
      (CreateControlledCloudflaredIfNotExist w ns caPool).outcome =
        .returned (some (.wrap e "create controlled-cloudflared-connector deployment"))) := by
  refine ⟨?_, ?_, ?_, ?_, ?_⟩
  · intro caPool err h
    cases hl : w.list (listOptions ns) with
    | error e =>
      rw [run_of_list_error hl caPool] at h
      simp only [Outcome.returned.injEq, Option.some.injEq] at h
      exact Or.inl ⟨e, rfl, by rw [← h]; rfl, h.symm⟩
    | ok items =>
      cases items with
      | cons x xs =>
        rw [run_of_existing hl (by simp) caPool] at h
        simp at h
      | nil =>
        cases caPool with
        | none =>
          unfold CreateControlledCloudflaredIfNotExist at h
          simp [hl] at h
        | some cp =>
          cases hs : caPoolSource cp with
          | error e =>
            rw [run_of_pool_error hl hs] at h
            simp only [Outcome.returned.injEq, Option.some.injEq] at h
            have he := ((caPoolSource_error_iff cp e).1 hs).2
            refine Or.inr (Or.inl ?_)
            rw [← h, he]
            exact ⟨rfl, rfl⟩
          | ok source =>
            cases ht : w.fetchTunnelToken with
            | error e =>
              rw [run_of_fetch_error hl hs ht] at h
              simp only [Outcome.returned.injEq, Option.some.injEq] at h
              exact Or.inr (Or.inr (Or.inl ⟨e, rfl, by rw [← h]; rfl, h.symm⟩))
            | ok token =>
              cases hp : ParseInt (w.getenv "CLOUDFLARED_REPLICA_COUNT") with
              | error e =>
                rw [run_of_parse_error hl hs ht hp] at h
                simp only [Outcome.returned.injEq, Option.some.injEq] at h
                exact Or.inr (Or.inr (Or.inr (Or.inl ⟨e, rfl, by rw [← h]; rfl, h.symm⟩)))
              | ok replicas =>
                rw [outcome_of_reaching_create hl hs ht hp] at h
                simp only [Outcome.returned.injEq] at h
                cases hc : w.create (cloudflaredConnectDeploymentTemplating w.getenv token ns
                    (toInt32 replicas) (extraVolumes source) (extraVolumeMounts cp source)) with
                | none =>
                  rw [hc] at h
                  cases h
                | some e =>
                  rw [hc] at h
                  simp only [Option.map_some', Option.some.injEq] at h
                  refine Or.inr (Or.inr (Or.inr (Or.inr
                    ⟨e, _, ?_, hc, by rw [← h]; rfl, h.symm⟩)))
                  rw [run_of_reaching_create hl hs ht hp]
                  simp
  · intro caPool e hl
    rw [run_of_list_error hl caPool]
  · intro cp e hl hpool ht
    obtain ⟨source, hs⟩ := caPoolSource_ok hpool
    rw [run_of_fetch_error hl hs ht]
  · intro cp token e hl hpool ht hp
    obtain ⟨source, hs⟩ := caPoolSource_ok hpool
    rw [run_of_parse_error hl hs ht hp]
  · intro caPool d e hmem hc
    obtain ⟨cp, source, token, replicas, hcp, hl, hs, ht, hp, hd⟩ := calls_of_create_mem hmem
    subst hcp hd
    rw [outcome_of_reaching_create hl hs ht hp, hc]
    rfl

/-- C14, amended, at a failing list query, a failing token fetch, the replica
string `abc` and a failing creation call, on the scenario's other inputs. -/
theorem returned_error_forms_witness :
    (CreateControlledCloudflaredIfNotExist
        (listFailureWorld (.external "connection refused") "tok-123" "2") "tun"
        (some scenarioPool)).outcome =
      .returned (some (.wrap (.external "connection refused")
        ("list controlled-cloudflared-connector in namespace " ++ "tun"))) ∧
    (CreateControlledCloudflaredIfNotExist
        (fetchFailureWorld (.external "unauthorized") "2") "tun"
        (some scenarioPool)).outcome =
      .returned (some (.wrap (.external "unauthorized") "fetch tunnel token")) ∧
    (CreateControlledCloudflaredIfNotExist (sampleWorld [] "tok-123" "abc") "tun"
        (some scenarioPool)).outcome =
      .returned (some (.wrap (.numError "ParseInt" "abc" .ErrSyntax)
        "invalid replica count")) ∧
    (CreateControlledCloudflaredIfNotExist
        (createFailureWorld (.external "forbidden") "tok-123" "2") "tun"
        (some scenarioPool)).outcome =
      .returned (some (.wrap (.external "forbidden")
        "create controlled-cloudflared-connector deployment")) :=
  ⟨(returned_error_forms (listFailureWorld (.external "connection refused") "tok-123" "2")
      "tun").2.1 (some scenarioPool) (.external "connection refused") rfl,
    (returned_error_forms (fetchFailureWorld (.external "unauthorized") "2") "tun").2.2.1
      scenarioPool (.external "unauthorized") rfl (by decide) rfl,
    (returned_error_forms (sampleWorld [] "tok-123" "abc") "tun").2.2.2.1
      scenarioPool "tok-123" (.numError "ParseInt" "abc" .ErrSyntax) rfl (by decide) rfl rfl,
    (returned_error_forms (createFailureWorld (.external "forbidden") "tok-123" "2")
      "tun").2.2.2.2 (some scenarioPool) scenarioDeployment (.external "forbidden")
      (by decide) rfl⟩

/-! ## Self-consistency of the built deployment (C16) -/

/-- C16: every deployment the program builds with
`cloudflaredConnectDeploymentTemplating` (it submits each one it builds) is
self-consistent, for every input of the provisioning call: its pod selector's
`MatchLabels` is `app = controlled-cloudflared-connector` and every key/value
pair of it appears in the labels of the pod template; it has one container, and
every volume mount of every container names a volume of the pod's volume list
(there are as many mounts as volumes).  The selector part holds of what the
templating function builds from any arguments whatever. -/
theorem built_deployment_consistency (w : World) (ns : String) (caPool : Option CaPool)
    (d : Deployment)
    (hcreate : Call.Create d ∈ (CreateControlledCloudflaredIfNotExist w ns caPool).calls) :
    (∃ sel, d.Spec.Selector = some sel ∧
      sel.MatchLabels = [("app", "controlled-cloudflared-connector")] ∧
      ∀ kv ∈ sel.MatchLabels,
        d.Spec.Template.ObjectMeta.Labels.lookup kv.1 = some kv.2) ∧
    (∀ c ∈ d.Spec.Template.Spec.Containers, ∀ m ∈ c.VolumeMounts,
      ∃ v ∈ d.Spec.Template.Spec.Volumes, v.Name = m.Name) ∧
    (∃ c, d.Spec.Template.Spec.Containers = [c] ∧
      c.VolumeMounts.length = d.Spec.Template.Spec.Volumes.length) ∧
    (∀ (getenv : String → String) (token ns2 : String) (replicas : Int)
        (volumes : List Volume) (mounts : List VolumeMount),
      ∃ sel, (cloudflaredConnectDeploymentTemplating getenv token ns2 replicas volumes
          mounts).Spec.Selector = some sel ∧
        ∀ kv ∈ sel.MatchLabels,
          (cloudflaredConnectDeploymentTemplating getenv token ns2 replicas volumes
            mounts).Spec.Template.ObjectMeta.Labels.lookup kv.1 = some kv.2) := by
  have hsel : ∀ (g : String → String) (t n : String) (r : Int) (vs : List Volume)
      (ms : List VolumeMount),
      ∃ sel, (cloudflaredConnectDeploymentTemplating g t n r vs ms).Spec.Selector = some sel ∧
        sel.MatchLabels = [("app", "controlled-cloudflared-connector")] ∧
        ∀ kv ∈ sel.MatchLabels,
          (cloudflaredConnectDeploymentTemplating g t n r vs
            ms).Spec.Template.ObjectMeta.Labels.lookup kv.1 = some kv.2 := by
    intro g t n r vs ms
    refine ⟨_, rfl, rfl, ?_⟩
    intro kv hkv
    simp only [List.mem_singleton] at hkv
    subst hkv
    rfl
  obtain ⟨cp, source, tok, r, -, -, hs, -, -, hd⟩ := calls_of_create_mem hcreate
  subst hd
  refine ⟨hsel _ _ _ _ _ _, ?_, ?_, ?_⟩
  · intro c hc m hm
    simp only [cloudflaredConnectDeploymentTemplating, List.mem_singleton] at hc
    subst hc
    cases source with
    | none => simp [extraVolumeMounts] at hm
    | some src =>
      simp only [extraVolumeMounts, List.nil_append, List.mem_singleton] at hm
      subst hm
      exact ⟨{ Name := "ca-pool", VolumeSource := src }, by simp [
        cloudflaredConnectDeploymentTemplating, extraVolumes], rfl⟩
  · refine ⟨_, rfl, ?_⟩
    cases source <;> rfl
  · intro g t n r vs ms
    obtain ⟨sel, h1, -, h3⟩ := hsel g t n r vs ms
    exact ⟨sel, h1, h3⟩

/-- C16 at the scenario: the submitted deployment selects its pods and its one
mount names its one volume. -/
theorem built_deployment_consistency_witness :
    Call.Create scenarioDeployment ∈
      (CreateControlledCloudflaredIfNotExist (sampleWorld [] "tok-123" "2") "tun"
        (some scenarioPool)).calls ∧
    scenarioDeployment.Spec.Selector =
      some { MatchLabels := [("app", "controlled-cloudflared-connector")] } ∧
    scenarioDeployment.Spec.Template.ObjectMeta.Labels.lookup "app" =
      some "controlled-cloudflared-connector" ∧
    (∃ c, scenarioDeployment.Spec.Template.Spec.Containers = [c] ∧
      c.VolumeMounts.length = 1) ∧
    ∀ c ∈ scenarioDeployment.Spec.Template.Spec.Containers, ∀ m ∈ c.VolumeMounts,
      ∃ v ∈ scenarioDeployment.Spec.Template.Spec.Volumes, v.Name = m.Name :=
  ⟨by decide, rfl, rfl, ⟨_, rfl, rfl⟩,
    (built_deployment_consistency (sampleWorld [] "tok-123" "2") "tun" (some scenarioPool)
      scenarioDeployment (by decide)).2.1⟩

end Controller
